import Mathlib

/-!
Shallow embedding of the real-time fan-out and presence subsystem of
InstantChatApp, taken from src/backend/controllers/socketController.js.

The two module-level JS Maps

  const activeUsers = new Map(); // userId -> socketId
  const userSockets = new Map(); // socketId -> userId

are modelled as association lists with JS Map semantics: set replaces the
value of an existing key in place, delete removes the entry, get returns the
value of the first (unique) matching key. Socket and user identifiers are
opaque and modelled as Nat. Event payload strings are Lean String; message
content is modelled as List Char so that the substring truncation of the
source (content.substring(0, 50)) becomes List.take 50.

Database access goes through the query helper; each handler performs a fixed
sequence of SQL statements, each of which either returns rows or throws.
That oracle is the Store structure below: one field per distinct SQL
statement the subsystem issues, returning Except Unit so a failing query is
the error case. A handler is embedded as a pure function from the store
oracle, the ambient socket.io state and its arguments to the effects it
produces: the list of successful database writes and the list of
(socketId, event) deliveries.
-/

namespace InstantChat

/-- JS Map.set on an association list: replace the value of an existing key,
otherwise append the new entry (insertion order preserved, as in JS). -/
def mset (m : List (Nat × Nat)) (k v : Nat) : List (Nat × Nat) :=
  match m with
  | [] => [(k, v)]
  | (a, b) :: rest => if a = k then (k, v) :: rest else (a, b) :: mset rest k v

/-- JS Map.delete on an association list. -/
def mdel (m : List (Nat × Nat)) (k : Nat) : List (Nat × Nat) :=
  match m with
  | [] => []
  | (a, b) :: rest => if a = k then mdel rest k else (a, b) :: mdel rest k

/-- JS Map.get on an association list. -/
def mget (m : List (Nat × Nat)) (k : Nat) : Option Nat :=
  match m with
  | [] => none
  | (a, b) :: rest => if a = k then some b else mget rest k

/-- JS Map.has on an association list. -/
def mhas (m : List (Nat × Nat)) (k : Nat) : Bool :=
  (mget m k).isSome

/-- Add a socket id to the list of connected sockets if not already present
(socket.io bookkeeping for a newly accepted connection). -/
def insertSock (l : List Nat) (s : Nat) : List Nat :=
  if s ∈ l then l else l ++ [s]

/-- Server-side state visible to the handlers: the two module-level Maps of
socketController.js, plus the socket.io runtime state the emit calls range
over (the set of connected sockets, and the conversation-room membership
pairs (conversationId, socketId) built up by socket.join). -/
structure ChatState where
  activeUsers : List (Nat × Nat)
  userSockets : List (Nat × Nat)
  rooms : List (Nat × Nat)
  sockets : List Nat
deriving DecidableEq, Repr

def emptyState : ChatState := ⟨[], [], [], []⟩

/-- The full message object built in the send_message handler (lines
111-119 of socketController.js). -/
structure Message where
  id : Nat
  conversationId : Nat
  senderId : Nat
  senderName : String
  content : List Char
  messageType : String
  createdAt : Nat
deriving DecidableEq, Repr

/-- Outbound server events of socketController.js. -/
inductive SEvent where
  | conversationJoined (conversationId : Nat)
  | conversationLeft (conversationId : Nat)
  | newMessage (m : Message)
  | messageNotification (conversationId : Nat) (senderName : String) (preview : List Char)
  | userTyping (conversationId userId : Nat) (username : String)
  | userStoppedTyping (conversationId userId : Nat)
  | userStatusChanged (userId : Nat) (username status : String)
  | errorEvent (message : String)
deriving DecidableEq, Repr

/-- Successful database writes, one constructor per UPDATE or INSERT
statement the subsystem issues. -/
inductive StoreWrite where
  | insertMessage (conversationId senderId : Nat) (content : List Char) (messageType : String)
  | touchConversation (conversationId : Nat)
  | updateStatus (userId : Nat) (status : String)
  | updateStatusLastSeen (userId : Nat) (status : String)
deriving DecidableEq, Repr

/-- Oracle for the database layer: one field per distinct SQL statement,
with the error case standing for a query that throws.
participantCheck returns whether the participant row exists. insertMessage
returns the generated id and created timestamp. -/
structure Store where
  participantCheck : Nat → Nat → Except Unit Bool
  insertMessage : Nat → Nat → List Char → String → Except Unit (Nat × Nat)
  touchConversation : Nat → Except Unit Unit
  updateStatus : Nat → String → Except Unit Unit
  updateStatusLastSeen : Nat → String → Except Unit Unit

/-- Observable effects of one handler invocation: the database writes that
succeeded and the (socketId, event) deliveries, in order. -/
structure Effects where
  writes : List StoreWrite
  emits : List (Nat × SEvent)
deriving DecidableEq, Repr

/-- Sockets currently subscribed to the room of a conversation. -/
def roomMembers (st : ChatState) (conversationId : Nat) : List Nat :=
  (st.rooms.filter (fun p => p.1 == conversationId)).map (fun p => p.2)

/-- io.to(room).emit(ev): deliver to every subscriber of the room. -/
def emitToRoom (st : ChatState) (conversationId : Nat) (ev : SEvent) : List (Nat × SEvent) :=
  (roomMembers st conversationId).map (fun s => (s, ev))

/-- socket.to(room).emit(ev): deliver to every subscriber of the room other
than the emitting socket itself. -/
def emitToRoomSkipSelf (st : ChatState) (conversationId sid : Nat) (ev : SEvent) :
    List (Nat × SEvent) :=
  ((roomMembers st conversationId).filter (fun s => s != sid)).map (fun s => (s, ev))

/-- io.emit(ev): deliver to every connected socket. -/
def emitGlobal (st : ChatState) (ev : SEvent) : List (Nat × SEvent) :=
  st.sockets.map (fun s => (s, ev))

/-- socket.broadcast.emit(ev): deliver to every connected socket other than
the emitting socket itself. -/
def emitBroadcastSkipSelf (st : ChatState) (sid : Nat) (ev : SEvent) : List (Nat × SEvent) :=
  (st.sockets.filter (fun s => s != sid)).map (fun s => (s, ev))

/-- State mutation of the connection handler, lines 49-50 (the two Map.set
calls), together with socket.io accepting the socket. -/
def connectState (st : ChatState) (uid sid : Nat) : ChatState :=
  { st with
      activeUsers := mset st.activeUsers uid sid
      userSockets := mset st.userSockets sid uid
      sockets := insertSock st.sockets sid }

/-- State mutation of the disconnect handler, lines 187-188 (the two
Map.delete calls), together with socket.io dropping the socket from the
connected set and from every room. -/
def disconnectState (st : ChatState) (uid sid : Nat) : ChatState :=
  { st with
      activeUsers := mdel st.activeUsers uid
      userSockets := mdel st.userSockets sid
      sockets := st.sockets.filter (fun s => s != sid)
      rooms := st.rooms.filter (fun p => p.2 != sid) }

/-- updateUserStatus (lines 208-217): runs the status and last_seen UPDATE
inside its own try/catch; a query error is logged and swallowed, so the
function always returns normally, recording the write only on success. -/
def updateUserStatus (store : Store) (uid : Nat) (status : String) : List StoreWrite :=
  match store.updateStatusLastSeen uid status with
  | .error _ => []
  | .ok _ => [.updateStatusLastSeen uid status]

/-- isUserOnline (lines 232-234): activeUsers.has(userId). -/
def isUserOnline (st : ChatState) (uid : Nat) : Bool :=
  mhas st.activeUsers uid

/-- getActiveUsersCount (lines 223-225): activeUsers.size. -/
def getActiveUsersCount (st : ChatState) : Nat :=
  st.activeUsers.length

/-- The join_conversation handler (lines 59-78): participant check, then
either socket.join plus conversation_joined to the requester, or an error
event to the requester; a thrown query is caught and surfaced as an error
event to the requester. -/
def handleJoinConversation (store : Store) (st : ChatState) (sid uid conversationId : Nat) :
    ChatState × Effects :=
  match store.participantCheck conversationId uid with
  | .error _ => (st, ⟨[], [(sid, .errorEvent "Failed to join conversation")]⟩)
  | .ok false => (st, ⟨[], [(sid, .errorEvent "Not a participant in this conversation")]⟩)
  | .ok true =>
      ({ st with rooms := st.rooms ++ [(conversationId, sid)] },
        ⟨[], [(sid, .conversationJoined conversationId)]⟩)

/-- The send_message handler (lines 88-143): participant check, INSERT of
the message, UPDATE of the conversation timestamp, then the new_message
room broadcast and the message_notification broadcast that skips the
sending socket, with preview content.substring(0, 50). Any thrown query
aborts the rest and emits one error event to the sender. -/
def handleSendMessage (store : Store) (st : ChatState) (sid uid : Nat) (uname : String)
    (conversationId : Nat) (content : List Char) (messageType : String) : Effects :=
  match store.participantCheck conversationId uid with
  | .error _ => ⟨[], [(sid, .errorEvent "Failed to send message")]⟩
  | .ok false => ⟨[], [(sid, .errorEvent "Not a participant in this conversation")]⟩
  | .ok true =>
    match store.insertMessage conversationId uid content messageType with
    | .error _ => ⟨[], [(sid, .errorEvent "Failed to send message")]⟩
    | .ok (mid, ts) =>
      let message : Message :=
        ⟨mid, conversationId, uid, uname, content, messageType, ts⟩
      match store.touchConversation conversationId with
      | .error _ =>
          ⟨[.insertMessage conversationId uid content messageType],
            [(sid, .errorEvent "Failed to send message")]⟩
      | .ok _ =>
          ⟨[.insertMessage conversationId uid content messageType,
              .touchConversation conversationId],
            emitToRoom st conversationId (.newMessage message) ++
              emitToRoomSkipSelf st conversationId sid
                (.messageNotification conversationId uname (content.take 50))⟩

/-- The typing_start handler (lines 146-152): no query at all, one
user_typing broadcast to the room that skips the sending socket. -/
def handleTypingStart (st : ChatState) (sid uid : Nat) (uname : String)
    (conversationId : Nat) : Effects :=
  ⟨[], emitToRoomSkipSelf st conversationId sid (.userTyping conversationId uid uname)⟩

/-- The typing_stop handler (lines 154-159): no query at all, one
user_stopped_typing broadcast to the room that skips the sending socket. -/
def handleTypingStop (st : ChatState) (sid uid conversationId : Nat) : Effects :=
  ⟨[], emitToRoomSkipSelf st conversationId sid (.userStoppedTyping conversationId uid)⟩

/-- The update_status handler (lines 162-180): status UPDATE, then a global
user_status_changed broadcast via io.emit; the catch block only logs, so a
thrown query produces no event at all. -/
def handleUpdateStatus (store : Store) (st : ChatState) (_sid uid : Nat) (uname status : String) :
    Effects :=
  match store.updateStatus uid status with
  | .error _ => ⟨[], []⟩
  | .ok _ =>
      ⟨[.updateStatus uid status],
        emitGlobal st (.userStatusChanged uid uname status)⟩

/-- The disconnect handler (lines 183-199): delete both Map entries, await
updateUserStatus (which never throws), then unconditionally broadcast the
offline user_status_changed event to every other connected socket. -/
def handleDisconnect (store : Store) (st : ChatState) (sid uid : Nat) (uname : String) :
    ChatState × Effects :=
  (disconnectState st uid sid,
    ⟨updateUserStatus store uid "offline",
      emitBroadcastSkipSelf st sid (.userStatusChanged uid uname "offline")⟩)

/-- Registry operations for presence traces: a connection handshake for a
user (socket.userId, socket.id) and a disconnect of such a socket. -/
inductive Op where
  | conn (uid sid : Nat)
  | disc (uid sid : Nat)
deriving DecidableEq, Repr

/-- One registry step: the state mutation the connection handler performs on
connect and the disconnect handler performs on disconnect. -/
def stepOp (st : ChatState) : Op → ChatState
  | .conn uid sid => connectState st uid sid
  | .disc uid sid => disconnectState st uid sid

/-- Run a register/deregister trace from the empty state. -/
def runOps (ops : List Op) : ChatState :=
  ops.foldl stepOp emptyState

/-- The live connections a user holds after a trace, read off the trace
itself: sockets the user connected that no later disconnect removed. This is
the presence set the specification describes, independent of the code. -/
def specLiveConns (ops : List Op) (u : Nat) : List Nat :=
  ops.foldl
    (fun l op =>
      match op with
      | .conn v s => if v = u then insertSock l s else l
      | .disc _ s => l.filter (fun x => x != s))
    []

/-- One step of the presence recurrence the code actually implements: a
connect of the user forces true, a disconnect of any socket the user owns
forces false, other operations leave the flag unchanged. -/
def onlineStep (u : Nat) (b : Bool) : Op → Bool
  | .conn v _ => if v = u then true else b
  | .disc v _ => if v = u then false else b

/-- What the code actually computes for presence after a trace: true after a
connect of the user, false after any disconnect of one of the sockets the
user owns, regardless of other live sockets. -/
def codeOnline (ops : List Op) (u : Nat) : Bool :=
  ops.foldl (onlineStep u) false

/-- The presence set of a user as the code stores it: activeUsers holds at
most one socket per user, so the set is the singleton of the stored socket
or empty. -/
def codeConnectionsOf (st : ChatState) (u : Nat) : List Nat :=
  match mget st.activeUsers u with
  | some s => [s]
  | none => []

/-- Error outcome vocabulary the specification uses for the registry. -/
inductive RegErr where
  | DuplicateConnection
deriving DecidableEq, Repr

/-- Registry state as the specification describes it: the set of registered
connection ids and a presence set of live connection ids per user. -/
structure SpecRegState where
  registered : List Nat
  presence : List (Nat × List Nat)
deriving DecidableEq, Repr

/-- Add a connection id to the presence set of a user. -/
def addPresence (p : List (Nat × List Nat)) (u sid : Nat) : List (Nat × List Nat) :=
  match p with
  | [] => [(u, [sid])]
  | (v, l) :: rest =>
      if v = u then (v, insertSock l sid) :: rest else (v, l) :: addPresence rest u sid

/-- Modelled from the spec: register(connectionId, userId) as section 4.1
describes it, failing with DuplicateConnection when the connection id is
already registered and otherwise adding the connection to the presence set
of the user, where connections of the same user coexist. -/
def specRegister (st : SpecRegState) (cid uid : Nat) : Except RegErr SpecRegState :=
  if cid ∈ st.registered then .error .DuplicateConnection
  else .ok { registered := st.registered ++ [cid], presence := addPresence st.presence uid cid }

/-- Presence set of a user in the spec-side registry state. -/
def specConnsOf (st : SpecRegState) (u : Nat) : List Nat :=
  match st.presence.find? (fun p => p.1 == u) with
  | some p => p.2
  | none => []

/-- Names bound at module top level in socketController.js; the body of
sendToUser resolves free variables against this scope (and then against the
empty global scope), so a name absent here is a ReferenceError at call
time. -/
def moduleTopLevelNames : List String :=
  ["jwt", "query", "activeUsers", "userSockets", "setupSocketHandlers",
    "updateUserStatus", "getActiveUsersCount", "isUserOnline", "sendToUser"]

/-- Possible outcomes of a sendToUser call. -/
inductive SendToUserResult where
  | noDelivery
  | referenceError (name : String)
  | delivered (sid : Nat) (event : String)
deriving DecidableEq, Repr

/-- sendToUser (lines 242-247): look the user up in activeUsers; if a socket
id is found, evaluate io.to(socketId).emit(event, data), whose head variable
io must resolve in the enclosing scope; io is only a parameter of
setupSocketHandlers, so the lookup is against moduleTopLevelNames. -/
def sendToUser (st : ChatState) (uid : Nat) (event : String) : SendToUserResult :=
  match mget st.activeUsers uid with
  | none => .noDelivery
  | some sid =>
      if moduleTopLevelNames.contains "io" then .delivered sid event
      else .referenceError "io"

/-- Store oracle with every query succeeding; the INSERT returns id 99 and
timestamp 1000. -/
def storeAllOk : Store where
  participantCheck := fun _ _ => .ok true
  insertMessage := fun _ _ _ _ => .ok (99, 1000)
  touchConversation := fun _ => .ok ()
  updateStatus := fun _ _ => .ok ()
  updateStatusLastSeen := fun _ _ => .ok ()

/-- Store oracle with every query throwing. -/
def storeAllFail : Store where
  participantCheck := fun _ _ => .error ()
  insertMessage := fun _ _ _ _ => .error ()
  touchConversation := fun _ => .error ()
  updateStatus := fun _ _ => .error ()
  updateStatusLastSeen := fun _ _ => .error ()

/-- Store oracle where the participant check succeeds but finds no row. -/
def storeNoPart : Store where
  participantCheck := fun _ _ => .ok false
  insertMessage := fun _ _ _ _ => .ok (99, 1000)
  touchConversation := fun _ => .ok ()
  updateStatus := fun _ _ => .ok ()
  updateStatusLastSeen := fun _ _ => .ok ()

/-- Store oracle where the participant check passes but the message INSERT
throws. -/
def storeInsertFail : Store where
  participantCheck := fun _ _ => .ok true
  insertMessage := fun _ _ _ _ => .error ()
  touchConversation := fun _ => .ok ()
  updateStatus := fun _ _ => .ok ()
  updateStatusLastSeen := fun _ _ => .ok ()

/-- Store oracle where the participant check and INSERT pass but the
conversation timestamp UPDATE throws. -/
def storeTouchFail : Store where
  participantCheck := fun _ _ => .ok true
  insertMessage := fun _ _ _ _ => .ok (99, 1000)
  touchConversation := fun _ => .error ()
  updateStatus := fun _ _ => .ok ()
  updateStatusLastSeen := fun _ _ => .ok ()

/-- Concrete socket.io state: sockets 5 and 6 connected, both subscribed to
the room of conversation 42. -/
def stRoom42 : ChatState := ⟨[], [], [(42, 5), (42, 6)], [5, 6]⟩

section MapLemmas

theorem mget_mset (m : List (Nat × Nat)) (k v j : Nat) :
    mget (mset m k v) j = if j = k then some v else mget m j := by
  induction m with
  | nil =>
    by_cases hj : j = k
    · subst hj; simp [mset, mget]
    · have hk : ¬ k = j := fun h => hj h.symm
      simp [mset, mget, hj, hk]
  | cons p rest ih =>
    obtain ⟨a, b⟩ := p
    by_cases hak : a = k
    · subst hak
      by_cases hj : j = a
      · subst hj; simp [mset, mget]
      · have haj : ¬ a = j := fun h => hj h.symm
        simp [mset, mget, hj, haj]
    · by_cases hj : j = a
      · subst hj
        have hjk : ¬ j = k := fun h => hak h
        simp [mset, mget, hak, hjk]
      · have haj : ¬ a = j := fun h => hj h.symm
        simp [mset, mget, hak, haj, ih]

theorem mget_mdel (m : List (Nat × Nat)) (k j : Nat) :
    mget (mdel m k) j = if j = k then none else mget m j := by
  induction m with
  | nil => by_cases hj : j = k <;> simp [mdel, mget, hj]
  | cons p rest ih =>
    obtain ⟨a, b⟩ := p
    by_cases hak : a = k
    · subst hak
      by_cases hj : j = a
      · subst hj; simp [mdel, mget, ih]
      · have haj : ¬ a = j := fun h => hj h.symm
        simp [mdel, mget, hj, haj, ih]
    · by_cases hj : j = a
      · subst hj
        have hjk : ¬ j = k := fun h => hak h
        simp [mdel, mget, hak, hjk]
      · have haj : ¬ a = j := fun h => hj h.symm
        simp [mdel, mget, hak, haj, ih]

theorem isUserOnline_connectState (st : ChatState) (uid sid u : Nat) :
    isUserOnline (connectState st uid sid) u =
      (if uid = u then true else isUserOnline st u) := by
  by_cases h : uid = u
  · subst h; simp [isUserOnline, connectState, mhas, mget_mset]
  · have hu : ¬ u = uid := fun e => h e.symm
    simp [isUserOnline, connectState, mhas, mget_mset, h, hu]

theorem isUserOnline_disconnectState (st : ChatState) (uid sid u : Nat) :
    isUserOnline (disconnectState st uid sid) u =
      (if uid = u then false else isUserOnline st u) := by
  by_cases h : uid = u
  · subst h; simp [isUserOnline, disconnectState, mhas, mget_mdel]
  · have hu : ¬ u = uid := fun e => h e.symm
    simp [isUserOnline, disconnectState, mhas, mget_mdel, h, hu]

theorem isUserOnline_run_aux (ops : List Op) (st : ChatState) (u : Nat) :
    isUserOnline (ops.foldl stepOp st) u = ops.foldl (onlineStep u) (isUserOnline st u) := by
  induction ops generalizing st with
  | nil => rfl
  | cons op rest ih =>
    simp only [List.foldl_cons]
    rw [ih]
    cases op with
    | conn v s => rw [show stepOp st (Op.conn v s) = connectState st v s from rfl,
        isUserOnline_connectState]; rfl
    | disc v s => rw [show stepOp st (Op.disc v s) = disconnectState st v s from rfl,
        isUserOnline_disconnectState]; rfl

theorem mem_emitBroadcastSkipSelf (st : ChatState) (sid s : Nat) (ev : SEvent) :
    ((s, ev) ∈ emitBroadcastSkipSelf st sid ev) ↔ (s ∈ st.sockets ∧ s ≠ sid) := by
  constructor
  · intro hmem
    rcases List.mem_map.mp hmem with ⟨x, hxf, hx⟩
    rcases List.mem_filter.mp hxf with ⟨hxl, hxb⟩
    injection hx with h1 h2
    subst h1
    exact ⟨hxl, bne_iff_ne.mp hxb⟩
  · rintro ⟨hs, hne⟩
    exact List.mem_map_of_mem _ (List.mem_filter.mpr ⟨hs, bne_iff_ne.mpr hne⟩)

theorem mem_emitToRoomSkipSelf (st : ChatState) (cid sid s : Nat) (ev : SEvent) :
    ((s, ev) ∈ emitToRoomSkipSelf st cid sid ev) ↔ (s ∈ roomMembers st cid ∧ s ≠ sid) := by
  constructor
  · intro hmem
    rcases List.mem_map.mp hmem with ⟨x, hxf, hx⟩
    rcases List.mem_filter.mp hxf with ⟨hxl, hxb⟩
    injection hx with h1 h2
    subst h1
    exact ⟨hxl, bne_iff_ne.mp hxb⟩
  · rintro ⟨hs, hne⟩
    exact List.mem_map_of_mem _ (List.mem_filter.mpr ⟨hs, bne_iff_ne.mpr hne⟩)

end MapLemmas

/-- C1 (counterexample): the trace connect(user 1, socket 10),
connect(user 1, socket 11), disconnect(user 1, socket 10) leaves socket 11
live for user 1, yet isUserOnline reports false: the disconnect handler
deletes the whole activeUsers entry of the user regardless of the remaining
connection, so the claimed iff with a non-empty live-connection set fails. -/
theorem isUserOnline_multiconn_counterexample :
    specLiveConns [Op.conn 1 10, Op.conn 1 11, Op.disc 1 10] 1 = [11] ∧
    isUserOnline (runOps [Op.conn 1 10, Op.conn 1 11, Op.disc 1 10]) 1 = false := by
  decide

/-- C1 (amended): after any register/deregister trace, isUserOnline equals
the last-event recurrence codeOnline: true exactly when the trace contains a
connect of the user not followed by a later disconnect of any socket that
user owns. Presence therefore tracks the most recent event of the user, not
the number of live connections. -/
theorem isUserOnline_eq_codeOnline (ops : List Op) (u : Nat) :
    isUserOnline (runOps ops) u = codeOnline ops u := by
  unfold runOps codeOnline
  rw [isUserOnline_run_aux]
  rfl

/-- C7 (counterexample): the spec-side register fails with
DuplicateConnection on a duplicate connection id and keeps both connections
of user 1 in the presence set, while the code proceeds on the duplicate
(silently rebinding socket 10 to user 2 in userSockets) and stores only the
latest connection of user 1, so socket 10 does not coexist with socket 11. -/
theorem register_duplicate_counterexample :
    specRegister ⟨[10], [(1, [10])]⟩ 10 2 = .error .DuplicateConnection ∧
    mget (connectState (connectState emptyState 1 10) 2 10).userSockets 10 = some 2 ∧
    specRegister ⟨[10], [(1, [10])]⟩ 11 1 = .ok ⟨[10, 11], [(1, [10, 11])]⟩ ∧
    codeConnectionsOf (runOps [Op.conn 1 10, Op.conn 1 11]) 1 = [11] ∧
    10 ∉ codeConnectionsOf (runOps [Op.conn 1 10, Op.conn 1 11]) 1 := by
  exact ⟨rfl, rfl, rfl, rfl, by decide⟩

/-- C7 (amended): registration never fails and performs no duplicate check:
registering an already-registered connection id silently reassigns it to the
new user in userSockets, and a second registration for the same user
replaces the previous connection in activeUsers, whose entry holds at most
one connection, so connections of one user never coexist. -/
theorem register_overwrites (st : ChatState) (uid uid2 sid sid2 : Nat) :
    mget (connectState (connectState st uid sid) uid2 sid).userSockets sid = some uid2 ∧
    mget (connectState (connectState st uid sid) uid sid2).activeUsers uid = some sid2 ∧
    codeConnectionsOf (connectState (connectState st uid sid) uid sid2) uid = [sid2] := by
  refine ⟨?_, ?_, ?_⟩
  · simp [connectState, mget_mset]
  · simp [connectState, mget_mset]
  · simp [codeConnectionsOf, connectState, mget_mset]

/-- C9: whenever the target user is online, sendToUser reaches the emit call
whose head variable io is not bound in the module scope (io is only a
parameter of setupSocketHandlers), so the call raises a ReferenceError
instead of delivering the event. -/
theorem sendToUser_reference_error (st : ChatState) (uid : Nat) (event : String)
    (h : isUserOnline st uid = true) :
    sendToUser st uid event = .referenceError "io" := by
  unfold sendToUser
  cases hmget : mget st.activeUsers uid with
  | none => simp [isUserOnline, mhas, hmget] at h
  | some sid =>
    simp only [hmget]
    have hio : moduleTopLevelNames.contains "io" = false := by decide
    simp [hio]
    decide

/-- C9 (witness): with user 1 connected on socket 10, the user is online and
sendToUser raises the ReferenceError on io. -/
theorem sendToUser_reference_error_witness :
    isUserOnline (connectState emptyState 1 10) 1 = true ∧
    sendToUser (connectState emptyState 1 10) 1 "ping" = .referenceError "io" :=
  ⟨by decide, sendToUser_reference_error (connectState emptyState 1 10) 1 "ping" (by decide)⟩

/-- C2 (counterexample): user 1 connects on sockets 10 and 11; per the trace
both connections are live, yet disconnecting socket 10 alone already
delivers the global offline user_status_changed event to socket 11, so an
offline presence event fires although a live connection of the user
remains. -/
theorem disconnect_offline_event_counterexample :
    specLiveConns [Op.conn 1 10, Op.conn 1 11] 1 = [10, 11] ∧
    (11, SEvent.userStatusChanged 1 "alice" "offline") ∈
      (handleDisconnect storeAllOk (runOps [Op.conn 1 10, Op.conn 1 11]) 10 1 "alice").2.emits := by
  refine ⟨rfl, ?_⟩
  decide

/-- C2 (amended): every disconnect broadcasts the offline
user_status_changed event, whatever other connections the user still holds:
the event reaches a socket exactly when that socket is connected and is not
the disconnecting one, so a user with two connections produces one offline
broadcast per disconnect rather than a single one at the last. -/
theorem disconnect_always_broadcasts_offline (store : Store) (st : ChatState)
    (sid uid : Nat) (uname : String) (s : Nat) :
    ((s, SEvent.userStatusChanged uid uname "offline") ∈
        (handleDisconnect store st sid uid uname).2.emits) ↔
      (s ∈ st.sockets ∧ s ≠ sid) := by
  exact mem_emitBroadcastSkipSelf st sid s (.userStatusChanged uid uname "offline")

/-- C3: a send_message whose participant check returns no row performs no
database write and emits exactly one error event, addressed to the sending
socket; no new_message or message_notification delivery occurs. -/
theorem send_message_nonparticipant (store : Store) (st : ChatState) (sid uid : Nat)
    (uname : String) (cid : Nat) (content : List Char) (mtype : String)
    (h : store.participantCheck cid uid = .ok false) :
    handleSendMessage store st sid uid uname cid content mtype =
      ⟨[], [(sid, .errorEvent "Not a participant in this conversation")]⟩ := by
  simp [handleSendMessage, h]

/-- C3 (witness): concrete non-participant send in the two-subscriber room
state: no write, one error event to socket 5 only. -/
theorem send_message_nonparticipant_witness :
    storeNoPart.participantCheck 42 7 = .ok false ∧
    handleSendMessage storeNoPart stRoom42 5 7 "alice" 42 ['h', 'i'] "text" =
      ⟨[], [(5, .errorEvent "Not a participant in this conversation")]⟩ :=
  ⟨rfl, send_message_nonparticipant storeNoPart stRoom42 5 7 "alice" 42 ['h', 'i'] "text" rfl⟩

/-- C4: when the message INSERT throws, or the INSERT succeeds and the
conversation timestamp UPDATE throws, the send_message handler emits exactly
one event: the generic error to the sending socket; no new_message and no
message_notification reaches any connection. -/
theorem send_message_store_failure (store : Store) (st : ChatState) (sid uid : Nat)
    (uname : String) (cid : Nat) (content : List Char) (mtype : String)
    (hp : store.participantCheck cid uid = .ok true)
    (hfail : store.insertMessage cid uid content mtype = .error () ∨
      (∃ r, store.insertMessage cid uid content mtype = .ok r ∧
        store.touchConversation cid = .error ())) :
    (handleSendMessage store st sid uid uname cid content mtype).emits =
      [(sid, .errorEvent "Failed to send message")] := by
  rcases hfail with h | ⟨⟨mid, ts⟩, hins, htouch⟩
  · simp [handleSendMessage, hp, h]
  · simp [handleSendMessage, hp, hins, htouch]

/-- C4 (witness): concrete failing INSERT in the two-subscriber room state:
the only emitted event is the error to the sending socket 5. -/
theorem send_message_store_failure_witness :
    storeInsertFail.participantCheck 42 1 = .ok true ∧
    storeInsertFail.insertMessage 42 1 ['h', 'i'] "text" = .error () ∧
    (handleSendMessage storeInsertFail stRoom42 5 1 "alice" 42 ['h', 'i'] "text").emits =
      [(5, .errorEvent "Failed to send message")] :=
  ⟨rfl, rfl,
    send_message_store_failure storeInsertFail stRoom42 5 1 "alice" 42 ['h', 'i'] "text"
      rfl (Or.inl rfl)⟩

/-- C5: on a successful send_message in a room containing the sending
socket, every room subscriber (the sender included) receives the new_message
event carrying the full message payload, every subscriber other than the
sending socket receives the message_notification whose preview is the
content truncated to at most 50 characters, and the sending socket receives
no message_notification of any shape. -/
theorem send_message_success_fanout (store : Store) (st : ChatState) (sid uid : Nat)
    (uname : String) (cid : Nat) (content : List Char) (mtype : String) (mid ts : Nat)
    (hp : store.participantCheck cid uid = .ok true)
    (hins : store.insertMessage cid uid content mtype = .ok (mid, ts))
    (htouch : store.touchConversation cid = .ok ())
    (hsender : sid ∈ roomMembers st cid) :
    ((sid, SEvent.newMessage ⟨mid, cid, uid, uname, content, mtype, ts⟩) ∈
        (handleSendMessage store st sid uid uname cid content mtype).emits) ∧
    (∀ s ∈ roomMembers st cid,
        (s, SEvent.newMessage ⟨mid, cid, uid, uname, content, mtype, ts⟩) ∈
          (handleSendMessage store st sid uid uname cid content mtype).emits) ∧
    (∀ s ∈ roomMembers st cid, s ≠ sid →
        (s, SEvent.messageNotification cid uname (content.take 50)) ∈
          (handleSendMessage store st sid uid uname cid content mtype).emits) ∧
    (∀ c n pv, (sid, SEvent.messageNotification c n pv) ∉
        (handleSendMessage store st sid uid uname cid content mtype).emits) ∧
    (content.take 50).length ≤ 50 := by
  have he : (handleSendMessage store st sid uid uname cid content mtype).emits =
      emitToRoom st cid (.newMessage ⟨mid, cid, uid, uname, content, mtype, ts⟩) ++
        emitToRoomSkipSelf st cid sid
          (.messageNotification cid uname (content.take 50)) := by
    simp [handleSendMessage, hp, hins, htouch]
  refine ⟨?_, ?_, ?_, ?_, ?_⟩
  · rw [he]
    exact List.mem_append_left _ (List.mem_map_of_mem _ hsender)
  · intro s hs
    rw [he]
    exact List.mem_append_left _ (List.mem_map_of_mem _ hs)
  · intro s hs hne
    rw [he]
    refine List.mem_append_right _ (List.mem_map_of_mem _ ?_)
    simp only [List.mem_filter, bne_iff_ne]
    exact ⟨hs, hne⟩
  · intro c n pv hmem
    rw [he] at hmem
    rcases List.mem_append.mp hmem with h1 | h2
    · rcases List.mem_map.mp h1 with ⟨x, -, hx⟩
      injection hx with hx1 hx2
      exact SEvent.noConfusion hx2
    · rcases List.mem_map.mp h2 with ⟨x, hxf, hx⟩
      injection hx with hx1 hx2
      simp only [List.mem_filter, bne_iff_ne] at hxf
      exact hxf.2 hx1
  · rw [List.length_take]
    exact min_le_left _ _

/-- C5 (witness): sockets 5 and 6 subscribe to room 42; socket 5 of user 1
sends content hi; the theorem instantiated there yields the fan-out, and the
concrete hypotheses hold by evaluation. -/
theorem send_message_success_fanout_witness :
    storeAllOk.participantCheck 42 1 = .ok true ∧
    storeAllOk.insertMessage 42 1 ['h', 'i'] "text" = .ok (99, 1000) ∧
    storeAllOk.touchConversation 42 = .ok () ∧
    5 ∈ roomMembers stRoom42 42 ∧
    (((5, SEvent.newMessage ⟨99, 42, 1, "alice", ['h', 'i'], "text", 1000⟩) ∈
        (handleSendMessage storeAllOk stRoom42 5 1 "alice" 42 ['h', 'i'] "text").emits) ∧
      (∀ s ∈ roomMembers stRoom42 42,
        (s, SEvent.newMessage ⟨99, 42, 1, "alice", ['h', 'i'], "text", 1000⟩) ∈
          (handleSendMessage storeAllOk stRoom42 5 1 "alice" 42 ['h', 'i'] "text").emits) ∧
      (∀ s ∈ roomMembers stRoom42 42, s ≠ 5 →
        (s, SEvent.messageNotification 42 "alice" (List.take 50 ['h', 'i'])) ∈
          (handleSendMessage storeAllOk stRoom42 5 1 "alice" 42 ['h', 'i'] "text").emits) ∧
      (∀ c n pv, (5, SEvent.messageNotification c n pv) ∉
          (handleSendMessage storeAllOk stRoom42 5 1 "alice" 42 ['h', 'i'] "text").emits) ∧
      (List.take 50 ['h', 'i']).length ≤ 50) :=
  ⟨rfl, rfl, rfl, by decide,
    send_message_success_fanout storeAllOk stRoom42 5 1 "alice" 42 ['h', 'i'] "text" 99 1000
      rfl rfl rfl (by decide)⟩

/-- C6 (counterexample): when the status UPDATE throws, the update_status
handler catches the error but emits nothing at all, in particular no error
event to the originating socket, contradicting the claim that every handler
surfaces store errors to the originating connection. -/
theorem update_status_failure_counterexample :
    storeAllFail.updateStatus 1 "away" = .error () ∧
    handleUpdateStatus storeAllFail stRoom42 5 1 "alice" "away" = ⟨[], []⟩ := by
  exact ⟨rfl, rfl⟩

/-- C6 (amended): store errors raised in a handler are caught, the handler
returns normally with no retry of the query, and join_conversation and
send_message surface the failure as one generic error event to the
originating socket; the update_status handler however swallows the error,
emitting no event and performing no write. -/
theorem store_errors_caught (store : Store) (st : ChatState) (sid uid : Nat)
    (uname status : String) (cid : Nat) (content : List Char) (mtype : String)
    (hu : store.updateStatus uid status = .error ())
    (hp : store.participantCheck cid uid = .error ()) :
    handleUpdateStatus store st sid uid uname status = ⟨[], []⟩ ∧
    handleJoinConversation store st sid uid cid =
      (st, ⟨[], [(sid, .errorEvent "Failed to join conversation")]⟩) ∧
    handleSendMessage store st sid uid uname cid content mtype =
      ⟨[], [(sid, .errorEvent "Failed to send message")]⟩ := by
  refine ⟨?_, ?_, ?_⟩
  · simp [handleUpdateStatus, hu]
  · simp [handleJoinConversation, hp]
  · simp [handleSendMessage, hp]

/-- C6 (witness): with every query throwing, update_status emits nothing
while join_conversation and send_message each emit one error event to the
originating socket 5. -/
theorem store_errors_caught_witness :
    storeAllFail.updateStatus 1 "away" = .error () ∧
    storeAllFail.participantCheck 42 1 = .error () ∧
    (handleUpdateStatus storeAllFail stRoom42 5 1 "alice" "away" = ⟨[], []⟩ ∧
      handleJoinConversation storeAllFail stRoom42 5 1 42 =
        (stRoom42, ⟨[], [(5, .errorEvent "Failed to join conversation")]⟩) ∧
      handleSendMessage storeAllFail stRoom42 5 1 "alice" 42 ['h', 'i'] "text" =
        ⟨[], [(5, .errorEvent "Failed to send message")]⟩) :=
  ⟨rfl, rfl,
    store_errors_caught storeAllFail stRoom42 5 1 "alice" "away" 42 ['h', 'i'] "text" rfl rfl⟩

/-- C8: the typing_start and typing_stop handlers take no store oracle at
all, record no database write, and deliver user_typing respectively
user_stopped_typing to a socket exactly when it subscribes to the room of
the conversation and is not the sending socket. -/
theorem typing_handlers_fanout (st : ChatState) (sid uid : Nat) (uname : String) (cid : Nat) :
    (handleTypingStart st sid uid uname cid).writes = [] ∧
    (handleTypingStop st sid uid cid).writes = [] ∧
    (∀ s, ((s, SEvent.userTyping cid uid uname) ∈
        (handleTypingStart st sid uid uname cid).emits) ↔
      (s ∈ roomMembers st cid ∧ s ≠ sid)) ∧
    (∀ s, ((s, SEvent.userStoppedTyping cid uid) ∈
        (handleTypingStop st sid uid cid).emits) ↔
      (s ∈ roomMembers st cid ∧ s ≠ sid)) := by
  refine ⟨rfl, rfl, ?_, ?_⟩
  · intro s
    exact mem_emitToRoomSkipSelf st cid sid s (.userTyping cid uid uname)
  · intro s
    exact mem_emitToRoomSkipSelf st cid sid s (.userStoppedTyping cid uid)

/-- C10: updateUserStatus swallows a failing status UPDATE, returning
normally with no recorded write, and the disconnect handler still delivers
the global offline user_status_changed broadcast to every other connected
socket even under that failure. -/
theorem disconnect_broadcast_despite_store_failure (store : Store) (st : ChatState)
    (sid uid : Nat) (uname : String)
    (h : store.updateStatusLastSeen uid "offline" = .error ()) :
    updateUserStatus store uid "offline" = [] ∧
    (handleDisconnect store st sid uid uname).2.writes = [] ∧
    (∀ s ∈ st.sockets, s ≠ sid →
      (s, SEvent.userStatusChanged uid uname "offline") ∈
        (handleDisconnect store st sid uid uname).2.emits) := by
  have hw : updateUserStatus store uid "offline" = [] := by
    simp [updateUserStatus, h]
  refine ⟨hw, ?_, ?_⟩
  · show updateUserStatus store uid "offline" = []
    exact hw
  · intro s hs hne
    show (s, SEvent.userStatusChanged uid uname "offline") ∈
      emitBroadcastSkipSelf st sid (.userStatusChanged uid uname "offline")
    refine List.mem_map_of_mem _ ?_
    simp only [List.mem_filter, bne_iff_ne]
    exact ⟨hs, hne⟩

/-- C10 (witness): users 1 and 2 connected on sockets 10 and 11; the status
UPDATE throws, yet disconnecting socket 10 still delivers the offline event
to socket 11 and records no write. -/
theorem disconnect_broadcast_despite_store_failure_witness :
    storeAllFail.updateStatusLastSeen 1 "offline" = .error () ∧
    (updateUserStatus storeAllFail 1 "offline" = [] ∧
      (handleDisconnect storeAllFail (runOps [Op.conn 1 10, Op.conn 2 11]) 10 1 "alice").2.writes
        = [] ∧
      (∀ s ∈ (runOps [Op.conn 1 10, Op.conn 2 11]).sockets, s ≠ 10 →
        (s, SEvent.userStatusChanged 1 "alice" "offline") ∈
          (handleDisconnect storeAllFail (runOps [Op.conn 1 10, Op.conn 2 11]) 10 1
              "alice").2.emits)) :=
  ⟨rfl,
    disconnect_broadcast_despite_store_failure storeAllFail
      (runOps [Op.conn 1 10, Op.conn 2 11]) 10 1 "alice" rfl⟩

end InstantChat
